import Mathlib

/-!
Verification of the frame-to-scene-to-script pipeline of Video Narrator Pro.

The definitions below are a shallow embedding of the Python source:
* `src/core/video_analyzer.py`   — `VideoAnalyzer.extract_frames`, `VideoAnalyzer.analyze_frame`
* `src/core/narrative_generator.py` — `NarrativeGenerator.identify_scenes`,
  `NarrativeGenerator.create_scene_narration`, `NarrativeGenerator.create_complete_narration`
* `src/core/templates.py`        — `Template` and its prompt accessors
* `src/utils/file_handling.py`   — `FileHandler.safe_file_name`

Python strings are modelled as Lean `String`/`List Char`; Python's `in`
substring test, `str.strip`, and truthiness of `Optional[str]` are given
explicit executable models.  External chat-completion calls are modelled as
function parameters returning `Except`; a raised exception is an `Except.error`.
-/

namespace VideoNarrator

/-! ### Python string primitives -/

/-- Python whitespace for `str.strip` (ASCII subset: space, tab, newline,
carriage return, vertical tab, form feed). -/
def pyIsSpace (c : Char) : Bool :=
  c = ' ' || c = '\t' || c = '\n' || c = '\r' || c = '\x0b' || c = '\x0c'

/-- Python `str.strip()` on a character list: drop whitespace from both ends. -/
def pyStripList (s : List Char) : List Char :=
  ((s.dropWhile pyIsSpace).reverse.dropWhile pyIsSpace).reverse

/-- Python `str.strip()` on a string. -/
def pyStrip (s : String) : String :=
  ⟨pyStripList s.data⟩

/-- `needle` occurs as a prefix of `haystack` (list version of `str.startswith`). -/
def listIsPrefixOf : List Char → List Char → Bool
  | [], _ => true
  | _ :: _, [] => false
  | a :: as, b :: bs => a = b && listIsPrefixOf as bs

/-- Python's substring test `needle in haystack` on character lists. -/
def listContainsSub (haystack needle : List Char) : Bool :=
  match haystack with
  | [] => needle.isEmpty
  | _ :: rest => listIsPrefixOf needle haystack || listContainsSub rest needle

/-- Python's substring test `needle in haystack` on strings. -/
def strContains (haystack needle : String) : Bool :=
  listContainsSub haystack.data needle.data

/-- Python `str.lower()` (character-wise; agrees with `String.toLower`). -/
def pyLower (s : String) : String :=
  ⟨s.data.map Char.toLower⟩

/-! ### Data model

`identify_scenes` consumes the `frames` entries of the analysis JSON, each a
dict with a `timestamp` and a `narration` string. -/

/-- One analysed frame record: `{'timestamp': ..., 'narration': ...}`. -/
structure Frame where
  timestamp : Nat
  narration : String
  deriving Repr, DecidableEq

/-! ### Scene segmentation (`NarrativeGenerator.identify_scenes`) -/

/-- The fixed transition vocabulary from `identify_scenes`. -/
def transitionTerms : List String :=
  ["moving to", "entering", "stepping into", "next we have",
   "moving into", "heading to", "walking into", "now in"]

/-- `any(term in description for term in [...])` where `description` is the
already lower-cased narration text. -/
def isTransitionText (description : String) : Bool :=
  transitionTerms.any (fun term => strContains description term)

/-- Whether a frame triggers the transition test:
`description = frame['narration'].lower()` then the membership test. -/
def frameIsTransition (f : Frame) : Bool :=
  isTransitionText (pyLower f.narration)

/-- The body of `identify_scenes`' loop, with the two accumulators
(`scenes`, `current_scene`) made explicit. -/
def identifyScenesLoop (scenes : List (List Frame)) (current : List Frame) :
    List Frame → List (List Frame)
  | [] => if current.isEmpty then scenes else scenes ++ [current]
  | f :: rest =>
    if frameIsTransition f && !current.isEmpty then
      identifyScenesLoop (scenes ++ [current]) [f] rest
    else
      identifyScenesLoop scenes (current ++ [f]) rest

/-- `NarrativeGenerator.identify_scenes`. -/
def identifyScenes (frames : List Frame) : List (List Frame) :=
  identifyScenesLoop [] [] frames

/-- Scene-start markers of one scene: its first element starts a scene, the
others do not. -/
def sceneFlags : List Frame → List Bool
  | [] => []
  | _ :: t => true :: t.map (fun _ => false)

/-- Scene-start markers of a scene list, aligned with the concatenation of
the scenes: `true` exactly at positions where a scene begins. -/
def startFlags (scenes : List (List Frame)) : List Bool :=
  (scenes.map sceneFlags).flatten

/-- The scene-start markers the specification predicts: the first description
always starts a scene, and a later description starts a new scene exactly when
its lower-cased text contains a transition phrase. -/
def expectedStartFlags : List Frame → List Bool
  | [] => []
  | _ :: rest => true :: rest.map frameIsTransition

/-! ### Frame sampling (`VideoAnalyzer.extract_frames`)

`extract_frames` computes `frame_times = range(0, int(video.duration),
self.frame_interval)` and emits one frame per element, in order.  The video
duration is modelled as a natural number (the value of `int(video.duration)`
after Python's float truncation). -/

/-- Python `range(start, stop, step)` for a positive step, written as a
fuel-indexed loop; `stop - start` iterations always suffice since each step
advances `start` by at least one. -/
def pyRangeAux : Nat → Nat → Nat → Nat → List Nat
  | 0, _, _, _ => []
  | fuel + 1, start, stop, step =>
    if start < stop then start :: pyRangeAux fuel (start + step) stop step
    else []

/-- Python `range(start, stop, step)` (empty for `step = 0`, which Python
rejects with a `ValueError`; `extract_frames` only uses `step ≥ 1`). -/
def pyRange (start stop step : Nat) : List Nat :=
  if step = 0 then [] else pyRangeAux (stop - start) start stop step

/-- The frame timestamps produced by `VideoAnalyzer.extract_frames`:
`range(0, int(video.duration), self.frame_interval)`. -/
def extractFrameTimes (duration interval : Nat) : List Nat :=
  pyRange 0 duration interval

/-! ### Templates (`src/core/templates.py`) -/

/-- The `Template` dataclass. -/
structure Template where
  id : String
  name : String
  description : String
  default_analysis_prompt : String
  default_narration_prompt : String
  custom_analysis_prompt : Option String := none
  custom_narration_prompt : Option String := none
  deriving Repr, DecidableEq

/-- Python truthiness of an `Optional[str]`: `None` and `""` are falsy. -/
def optStrTruthy : Option String → Bool
  | none => false
  | some s => !(s = "")

/-- Python `a or b` on an `Optional[str]` and a `str`: yields `a` when `a`
is truthy (non-`None` and non-empty), else `b`. -/
def pyOrElse (a : Option String) (b : String) : String :=
  match a with
  | none => b
  | some s => if s = "" then b else s

/-- `Template.analysis_prompt`: `custom_analysis_prompt or default_analysis_prompt`. -/
def Template.analysis_prompt (t : Template) : String :=
  pyOrElse t.custom_analysis_prompt t.default_analysis_prompt

/-- `Template.narration_prompt`: `custom_narration_prompt or default_narration_prompt`. -/
def Template.narration_prompt (t : Template) : String :=
  pyOrElse t.custom_narration_prompt t.default_narration_prompt

/-- `Template.reset_to_defaults` (mutation modelled as a functional update). -/
def Template.reset_to_defaults (t : Template) : Template :=
  { t with custom_analysis_prompt := none, custom_narration_prompt := none }

/-- `Template.is_customized`: `bool(custom_analysis_prompt or custom_narration_prompt)`. -/
def Template.is_customized (t : Template) : Bool :=
  optStrTruthy t.custom_analysis_prompt || optStrTruthy t.custom_narration_prompt

/-! ### External chat completions

`self.client.chat.completions.create(...)` is modelled as a function from the
(system content, user content) pair to `Except` — an exception raised by the
call is `Except.error`, and `response.choices[0].message.content` is the
`content` field of a successful result. -/

/-- Errors surfaced by the pipeline: a failed external call, or Python's
`IndexError` (`scene[0]` on an empty scene). -/
inductive PipelineError where
  | apiError (msg : String)
  | indexError
  deriving Repr, DecidableEq

/-- `response.choices[0].message.content` of a successful completion. -/
structure CompletionResponse where
  content : String
  deriving Repr, DecidableEq

/-- An external chat-completion capability: system content and user content
in, response or exception out. -/
def Completion : Type :=
  String → String → Except PipelineError CompletionResponse

/-! ### Frame description (`VideoAnalyzer.analyze_frame`) -/

/-- `VideoAnalyzer.analyze_frame`: system message is the template's
`analysis_prompt`, user content is the base64 data URL of the frame image;
the response content is returned as is. -/
def analyzeFrame (complete : Completion) (t : Template) (base64Image : String) :
    Except PipelineError String := do
  let response ← complete t.analysis_prompt ("data:image/jpeg;base64," ++ base64Image)
  pure response.content

/-! ### Scene narration (`NarrativeGenerator.create_scene_narration`) -/

/-- Per-scene timing data: `{'start_time': ..., 'end_time': ...,
'original_descriptions': ...}`. -/
structure TimingData where
  start_time : Nat
  end_time : Nat
  original_descriptions : List String
  deriving Repr, DecidableEq

/-- The system content of the per-scene narration request. -/
def narrationSystemContent (narrationPrompt : String) : String :=
  "Create flowing, natural narration suitable for text-to-speech. " ++
  "Do not include timestamps, stage directions, or technical notes. " ++
  "Use the style specified:\n\n" ++ narrationPrompt

/-- `NarrativeGenerator.create_scene_narration`: reads `scene[0]` (an
`IndexError` on an empty scene), joins the descriptions with newlines, calls
the completion, and returns the stripped narration with the timing data. -/
def createSceneNarration (complete : Completion) (narrationPrompt : String)
    (scene : List Frame) : Except PipelineError (String × TimingData) :=
  match scene with
  | [] => Except.error PipelineError.indexError
  | f :: rest => do
    let descriptions := (f :: rest).map Frame.narration
    let sceneContext := String.intercalate "\n" descriptions
    let response ← complete (narrationSystemContent narrationPrompt)
      ("Create natural narration from these descriptions:\n\n" ++ sceneContext)
    pure (pyStrip response.content,
      { start_time := f.timestamp
        end_time := (rest.getLastD f).timestamp
        original_descriptions := descriptions })

/-! ### Script assembly (`NarrativeGenerator.create_complete_narration`) -/

/-- The per-scene loop of `create_complete_narration`: narrate each scene in
order, collecting `(narration, timing)` pairs; the first failure aborts. -/
def sceneResults (complete : Completion) (narrationPrompt : String) :
    List (List Frame) → Except PipelineError (List (String × TimingData))
  | [] => Except.ok []
  | scene :: rest => do
    let r ← createSceneNarration complete narrationPrompt scene
    let rs ← sceneResults complete narrationPrompt rest
    pure (r :: rs)

/-- The system content of the final polishing request. -/
def polishSystemContent : String :=
  "Polish this narration for natural flow and text-to-speech delivery. " ++
  "Ensure smooth transitions between paragraphs. " ++
  "Do not include any technical notes or timing information."

/-- `NarrativeGenerator.create_complete_narration`: segment into scenes,
narrate each scene in order, join the narrations with `"\n\n"`, polish the
joined draft with one final completion, and return the stripped polished text
with the timing data.  Any failure propagates (the `except` clause logs and
re-raises). -/
def createCompleteNarration (complete : Completion) (t : Template)
    (frames : List Frame) : Except PipelineError (String × List TimingData) := do
  let scenes := identifyScenes frames
  let results ← sceneResults complete t.narration_prompt scenes
  let sceneNarrations := results.map Prod.fst
  let timingData := results.map Prod.snd
  let fullNarration := String.intercalate "\n\n" sceneNarrations
  let response ← complete polishSystemContent fullNarration
  pure (pyStrip response.content, timingData)

/-! ### Safe file names (`FileHandler.safe_file_name`) -/

/-- The unsafe characters replaced by `safe_file_name`. -/
def unsafeChars : List Char :=
  ['<', '>', ':', '"', '/', '\\', '|', '?', '*']

/-- `FileHandler.safe_file_name`: replace each unsafe character by `'_'`,
keep every other character, then `strip()` the result. -/
def safeFileName (name : String) : String :=
  pyStrip ⟨name.data.map (fun c => if c ∈ unsafeChars then '_' else c)⟩

/-! ## Lemmas about scene segmentation -/

lemma identifyScenesLoop_join (l : List Frame) :
    ∀ scenes current,
      (identifyScenesLoop scenes current l).flatten = scenes.flatten ++ current ++ l := by
  induction l with
  | nil =>
    intro scenes current
    by_cases h : current.isEmpty
    · simp [identifyScenesLoop, h, List.isEmpty_iff.mp h]
    · simp [identifyScenesLoop, h]
  | cons f rest ih =>
    intro scenes current
    by_cases h : frameIsTransition f && !current.isEmpty
    · simp [identifyScenesLoop, h, ih]
    · simp [identifyScenesLoop, h, ih]

lemma identifyScenesLoop_ne (l : List Frame) :
    ∀ scenes current, (∀ s ∈ scenes, s ≠ []) →
      ∀ s ∈ identifyScenesLoop scenes current l, s ≠ [] := by
  induction l with
  | nil =>
    intro scenes current hs s hmem
    by_cases h : current.isEmpty
    · simp only [identifyScenesLoop, h, if_true] at hmem
      exact hs s hmem
    · simp only [identifyScenesLoop, h, if_false] at hmem
      rcases List.mem_append.mp hmem with h1 | h1
      · exact hs s h1
      · have : s = current := by simpa using h1
        subst this
        simpa [List.isEmpty_iff] using h
  | cons f rest ih =>
    intro scenes current hs s hmem
    by_cases h : frameIsTransition f && !current.isEmpty
    · simp only [identifyScenesLoop, h, if_true] at hmem
      refine ih (scenes ++ [current]) [f] ?_ s hmem
      intro t ht
      rcases List.mem_append.mp ht with h1 | h1
      · exact hs t h1
      · have ht : t = current := by simpa using h1
        subst ht
        intro e
        rw [e] at h
        simp at h
    · simp only [identifyScenesLoop, h, if_false] at hmem
      exact ih scenes (current ++ [f]) hs s hmem

lemma startFlags_append (a b : List (List Frame)) :
    startFlags (a ++ b) = startFlags a ++ startFlags b := by
  simp [startFlags]

lemma sceneFlags_append_singleton (current : List Frame) (f : Frame)
    (h : current ≠ []) :
    sceneFlags (current ++ [f]) = sceneFlags current ++ [false] := by
  cases current with
  | nil => exact absurd rfl h
  | cons c t => simp [sceneFlags]

lemma identifyScenesLoop_flags (l : List Frame) :
    ∀ scenes current, current ≠ [] →
      startFlags (identifyScenesLoop scenes current l) =
        startFlags scenes ++ sceneFlags current ++ l.map frameIsTransition := by
  induction l with
  | nil =>
    intro scenes current hc
    have h : current.isEmpty = false := by simpa [List.isEmpty_iff] using hc
    simp [identifyScenesLoop, h, startFlags_append, startFlags]
  | cons f rest ih =>
    intro scenes current hc
    have hce : current.isEmpty = false := by
      cases current with
      | nil => exact absurd rfl hc
      | cons c t => rfl
    by_cases hf : frameIsTransition f
    · rw [show identifyScenesLoop scenes current (f :: rest) =
          identifyScenesLoop (scenes ++ [current]) [f] rest from by
            simp [identifyScenesLoop, hf, hce]]
      rw [ih _ [f] (by simp)]
      simp [startFlags_append, startFlags, sceneFlags, hf]
    · rw [show identifyScenesLoop scenes current (f :: rest) =
          identifyScenesLoop scenes (current ++ [f]) rest from by
            simp [identifyScenesLoop, hf, hce]]
      rw [ih _ (current ++ [f]) (by simp)]
      simp [sceneFlags_append_singleton current f hc, hf]

lemma identifyScenes_nil : identifyScenes ([] : List Frame) = [] := rfl

lemma identifyScenes_cons (f : Frame) (rest : List Frame) :
    identifyScenes (f :: rest) = identifyScenesLoop [] [f] rest := by
  simp [identifyScenes, identifyScenesLoop]

/-! ## Lemmas about Python range -/

lemma pyRangeAux_closed :
    ∀ (fuel start stop step : Nat), 1 ≤ step → stop - start ≤ fuel →
      pyRangeAux fuel start stop step =
        (List.range ((stop - start + step - 1) / step)).map
          (fun i => start + i * step) := by
  intro fuel
  induction fuel with
  | zero =>
    intro start stop step hstep hfuel
    have hgap : stop - start = 0 := Nat.le_zero.mp hfuel
    have : (stop - start + step - 1) / step = 0 :=
      Nat.div_eq_of_lt (by omega)
    simp [pyRangeAux, this]
  | succ fuel ih =>
    intro start stop step hstep hfuel
    by_cases h : start < stop
    · have hgap : 1 ≤ stop - start := by omega
      have hfuel' : stop - (start + step) ≤ fuel := by omega
      have hcount : (stop - start + step - 1) / step =
          (stop - (start + step) + step - 1) / step + 1 := by
        have hmain : stop - start + step - 1 = (stop - start - 1) + step := by omega
        rw [hmain, Nat.add_div_right _ (by omega : 0 < step)]
        by_cases hle : step ≤ stop - start
        · have h1 : stop - (start + step) + step - 1 = stop - start - 1 := by omega
          rw [h1]
        · have h1 : stop - (start + step) + step - 1 = step - 1 := by omega
          rw [h1, Nat.div_eq_of_lt (by omega), Nat.div_eq_of_lt (by omega)]
      rw [pyRangeAux, if_pos h, ih (start + step) stop step hstep hfuel', hcount,
        List.range_succ_eq_map]
      simp only [List.map_cons, List.map_map]
      congr 1
      · simp
      · refine List.map_congr_left fun i _ => ?_
        simp only [Function.comp_apply, Nat.succ_eq_add_one]
        ring
    · have hgap : stop - start = 0 := by omega
      have : (stop - start + step - 1) / step = 0 :=
        Nat.div_eq_of_lt (by omega)
      simp [pyRangeAux, h, this]

lemma extractFrameTimes_closed (duration interval : Nat) (h : 1 ≤ interval) :
    extractFrameTimes duration interval =
      (List.range ((duration + interval - 1) / interval)).map
        (fun i => i * interval) := by
  have hne : interval ≠ 0 := by omega
  have : extractFrameTimes duration interval =
      pyRangeAux (duration - 0) 0 duration interval := by
    simp [extractFrameTimes, pyRange, hne]
  rw [this, pyRangeAux_closed (duration - 0) 0 duration interval h (by omega)]
  simp

/-! ## Lemmas about Python strip -/

lemma head?_dropWhile_not {α : Type} (p : α → Bool) :
    ∀ (l : List α) (c : α), (l.dropWhile p).head? = some c → p c = false := by
  intro l
  induction l with
  | nil => intro c h; simp at h
  | cons a t ih =>
    intro c h
    rw [List.dropWhile_cons] at h
    by_cases hp : p a
    · simp [hp] at h
      exact ih c h
    · simp [hp] at h
      subst h
      simpa using hp

lemma pyStripList_infixOf (s : List Char) : pyStripList s <:+: s := by
  have h1 : s.dropWhile pyIsSpace <:+ s := List.dropWhile_suffix pyIsSpace
  have h2 : ((s.dropWhile pyIsSpace).reverse.dropWhile pyIsSpace).reverse <+:
      s.dropWhile pyIsSpace := by
    rw [← List.reverse_suffix]
    simpa using List.dropWhile_suffix (l := (s.dropWhile pyIsSpace).reverse) pyIsSpace
  exact h2.isInfix.trans h1.isInfix

lemma pyStripList_head? (s : List Char) (c : Char)
    (h : (pyStripList s).head? = some c) : pyIsSpace c = false := by
  unfold pyStripList at h
  rw [List.head?_reverse] at h
  rcases hu : (s.dropWhile pyIsSpace).reverse.dropWhile pyIsSpace with _ | ⟨a, u⟩
  · rw [hu] at h; simp at h
  · have hne : (s.dropWhile pyIsSpace).reverse.dropWhile pyIsSpace ≠ [] := by
      rw [hu]; simp
    have hsuf : (s.dropWhile pyIsSpace).reverse.dropWhile pyIsSpace <:+
        (s.dropWhile pyIsSpace).reverse := List.dropWhile_suffix pyIsSpace
    obtain ⟨t, ht⟩ := hsuf
    have hlast : ((s.dropWhile pyIsSpace).reverse).getLast? =
        ((s.dropWhile pyIsSpace).reverse.dropWhile pyIsSpace).getLast? := by
      conv_lhs => rw [← ht]
      exact List.getLast?_append_of_ne_nil t hne
    rw [← hlast, List.getLast?_reverse] at h
    exact head?_dropWhile_not pyIsSpace s c h

lemma pyStripList_getLast? (s : List Char) (c : Char)
    (h : (pyStripList s).getLast? = some c) : pyIsSpace c = false := by
  unfold pyStripList at h
  rw [List.getLast?_reverse] at h
  exact head?_dropWhile_not pyIsSpace _ c h

/-! ## Lemmas about the narration pipeline -/

lemma createCompleteNarration_eq (complete : Completion) (t : Template)
    (frames : List Frame) :
    createCompleteNarration complete t frames =
      match sceneResults complete t.narration_prompt (identifyScenes frames) with
      | Except.error e => Except.error e
      | Except.ok results =>
        match complete polishSystemContent
            (String.intercalate "\n\n" (results.map Prod.fst)) with
        | Except.error e => Except.error e
        | Except.ok r => Except.ok (pyStrip r.content, results.map Prod.snd) := by
  unfold createCompleteNarration
  cases h : sceneResults complete t.narration_prompt (identifyScenes frames) with
  | error e => simp [Bind.bind, Except.bind, h]
  | ok results =>
    cases h2 : complete polishSystemContent
        (String.intercalate "\n\n" (results.map Prod.fst)) with
    | error e => simp [Bind.bind, Except.bind, h, h2]
    | ok r => simp [Bind.bind, Except.bind, h, h2, Pure.pure, Except.pure]

lemma sceneResults_ok_spec (complete : Completion) (prompt : String) :
    ∀ (scenes : List (List Frame)) (results : List (String × TimingData)),
      sceneResults complete prompt scenes = Except.ok results →
      results.length = scenes.length ∧
      ∀ (i : Nat) (h1 : i < scenes.length) (h2 : i < results.length),
        createSceneNarration complete prompt (scenes.get ⟨i, h1⟩) =
          Except.ok (results.get ⟨i, h2⟩) := by
  intro scenes
  induction scenes with
  | nil =>
    intro results h
    have : results = [] := by
      simpa [sceneResults] using h
    subst this
    exact ⟨rfl, fun i h1 _ => absurd h1 (by simp)⟩
  | cons s rest ih =>
    intro results h
    unfold sceneResults at h
    cases hs : createSceneNarration complete prompt s with
    | error e => rw [hs] at h; simp [Bind.bind, Except.bind] at h
    | ok r =>
      rw [hs] at h
      cases hr : sceneResults complete prompt rest with
      | error e =>
        rw [hr] at h; simp [Bind.bind, Except.bind] at h
      | ok rs =>
        rw [hr] at h
        simp [Bind.bind, Except.bind, Pure.pure, Except.pure] at h
        subst h
        obtain ⟨hlen, hget⟩ := ih rs hr
        refine ⟨by simpa using hlen, ?_⟩
        intro i h1 h2
        cases i with
        | zero => simpa using hs
        | succ j =>
          have h1' : j < rest.length := by simpa using h1
          have h2' : j < rs.length := by simpa using h2
          simpa using hget j h1' h2'

/-! ## Claim theorems -/

/-- C1 (counterexample): at duration 5 and interval 2, `extract_frames`
produces the timestamps 0, 2, 4 — three frames, not the `floor(5/2) = 2`
frames at 0, 2 that the claim asserts. -/
theorem c1_counterexample :
    extractFrameTimes 5 2 = [0, 2, 4] ∧
    extractFrameTimes 5 2 ≠ [0, 2] ∧
    (extractFrameTimes 5 2).length ≠ 5 / 2 := by
  decide

/-- C1 (amended): for every duration `D` (the truncated video duration) and
interval `I ≥ 1`, the Frame Sampler produces exactly `⌈D/I⌉ = (D+I-1)/I`
frames, at timestamps `0, I, 2I, ...` — every multiple of `I` strictly below
`D` — in that order. -/
theorem c1_frame_sampler_times (duration interval : Nat) (h : 1 ≤ interval) :
    extractFrameTimes duration interval =
      (List.range ((duration + interval - 1) / interval)).map
        (fun i => i * interval) ∧
    (extractFrameTimes duration interval).length =
      (duration + interval - 1) / interval := by
  refine ⟨extractFrameTimes_closed duration interval h, ?_⟩
  rw [extractFrameTimes_closed duration interval h]
  simp

/-- C1 witness: the amended statement at duration 5, interval 2. -/
theorem c1_frame_sampler_times_witness :
    1 ≤ 2 ∧
    (extractFrameTimes 5 2 =
        (List.range ((5 + 2 - 1) / 2)).map (fun i => i * 2) ∧
      (extractFrameTimes 5 2).length = (5 + 2 - 1) / 2) :=
  ⟨by decide, c1_frame_sampler_times 5 2 (by decide)⟩

/-- C2: `identify_scenes` partitions its input — concatenating the returned
scenes in order reproduces the input frame sequence exactly, and every
returned scene is non-empty. -/
theorem c2_scene_partition (frames : List Frame) :
    (identifyScenes frames).flatten = frames ∧
    ∀ s ∈ identifyScenes frames, s ≠ [] := by
  constructor
  · simpa [identifyScenes] using identifyScenesLoop_join frames [] []
  · exact identifyScenesLoop_ne frames [] [] (by simp)

/-- C2 witness: the partition property on a concrete two-frame input with a
transition in the second frame. -/
theorem c2_scene_partition_witness :
    (identifyScenes [⟨0, "wide shot of kitchen"⟩,
        ⟨2, "moving to the living room"⟩]).flatten =
      [⟨0, "wide shot of kitchen"⟩, ⟨2, "moving to the living room"⟩] ∧
    ([⟨0, "wide shot of kitchen"⟩] : List Frame) ≠ [] :=
  ⟨(c2_scene_partition
      [⟨0, "wide shot of kitchen"⟩, ⟨2, "moving to the living room"⟩]).1,
   (c2_scene_partition
      [⟨0, "wide shot of kitchen"⟩, ⟨2, "moving to the living room"⟩]).2
     [⟨0, "wide shot of kitchen"⟩] (by decide)⟩

/-- C3: a description starts a new scene exactly when its lower-cased text
contains one of the eight transition phrases and it is not the first
description (the "current scene non-empty" guard): the scene-start markers of
`identify_scenes` are `true` for the first description and
`frameIsTransition` for every later one; an empty input yields an empty scene
list; and a single transition-containing description yields one scene of just
that description. -/
theorem c3_transition_boundary_rule :
    (∀ frames, startFlags (identifyScenes frames) = expectedStartFlags frames) ∧
    identifyScenes [] = [] ∧
    (∀ f, frameIsTransition f = true → identifyScenes [f] = [[f]]) := by
  refine ⟨?_, rfl, ?_⟩
  · intro frames
    cases frames with
    | nil => rfl
    | cons f rest =>
      rw [identifyScenes_cons, identifyScenesLoop_flags rest [] [f] (by simp)]
      simp [startFlags, sceneFlags, expectedStartFlags]
  · intro f _
    simp [identifyScenes, identifyScenesLoop]

/-- C3 witness: a single frame whose text contains the transition phrase
"entering" forms one scene of just itself. -/
theorem c3_transition_boundary_rule_witness :
    frameIsTransition ⟨0, "Entering the hall"⟩ = true ∧
    identifyScenes [⟨0, "Entering the hall"⟩] = [[⟨0, "Entering the hall"⟩]] :=
  ⟨by decide,
   c3_transition_boundary_rule.2.2 ⟨0, "Entering the hall"⟩ (by decide)⟩

/-- C4 (counterexample): `analyze_frame` returns the completion's text
without stripping it — on a response with surrounding whitespace the returned
description differs from the whitespace-trimmed text the claim asserts. -/
theorem c4_counterexample :
    analyzeFrame (fun _ _ => Except.ok ⟨" a kitchen. "⟩)
        ⟨"room-tour", "Room Walk-through", "", "DA", "DN", none, none⟩ "img" =
      Except.ok " a kitchen. " ∧
    pyStrip " a kitchen. " ≠ " a kitchen. " :=
  ⟨rfl, by decide⟩

/-- C4 (amended): `analyze_frame` returns the external vision completion's
response text verbatim — with no whitespace trimming or any other alteration —
and propagates a failed call unchanged. -/
theorem c4_describe_verbatim (complete : Completion) (t : Template)
    (base64Image : String) :
    (∀ r, complete t.analysis_prompt
        ("data:image/jpeg;base64," ++ base64Image) = Except.ok r →
      analyzeFrame complete t base64Image = Except.ok r.content) ∧
    (∀ e, complete t.analysis_prompt
        ("data:image/jpeg;base64," ++ base64Image) = Except.error e →
      analyzeFrame complete t base64Image = Except.error e) := by
  constructor
  · intro r h
    simp [analyzeFrame, Bind.bind, Except.bind, h, Pure.pure, Except.pure]
  · intro e h
    simp [analyzeFrame, Bind.bind, Except.bind, h]

/-- C4 witness: the amended statement at a concrete completion. -/
theorem c4_describe_verbatim_witness :
    analyzeFrame (fun _ _ => Except.ok ⟨"tidy room"⟩)
        ⟨"room-tour", "Room Walk-through", "", "DA", "DN", none, none⟩ "" =
      Except.ok "tidy room" :=
  (c4_describe_verbatim (fun _ _ => Except.ok ⟨"tidy room"⟩)
    ⟨"room-tour", "Room Walk-through", "", "DA", "DN", none, none⟩ "").1
    ⟨"tidy room"⟩ rfl

/-- C5 (counterexample): a present but empty user override is ignored —
with `custom_analysis_prompt = some ""` the effective analysis prompt is the
default, not the override, because Python's `or` treats `""` as falsy. -/
theorem c5_counterexample :
    (Template.mk "room-tour" "Room Walk-through" "" "DA" "DN"
        (some "") none).custom_analysis_prompt = some "" ∧
    (Template.mk "room-tour" "Room Walk-through" "" "DA" "DN"
        (some "") none).analysis_prompt = "DA" ∧
    ("DA" : String) ≠ "" := by
  refine ⟨rfl, rfl, by decide⟩

/-- C5 (amended): the effective analysis/narration instruction equals the
user override when an override is present **and non-empty**, and the built-in
default otherwise (absent override, or present-but-empty override). -/
theorem c5_effective_prompts (t : Template) :
    (∀ s, t.custom_analysis_prompt = some s → s ≠ "" →
      t.analysis_prompt = s) ∧
    (t.custom_analysis_prompt = none ∨ t.custom_analysis_prompt = some "" →
      t.analysis_prompt = t.default_analysis_prompt) ∧
    (∀ s, t.custom_narration_prompt = some s → s ≠ "" →
      t.narration_prompt = s) ∧
    (t.custom_narration_prompt = none ∨ t.custom_narration_prompt = some "" →
      t.narration_prompt = t.default_narration_prompt) := by
  refine ⟨?_, ?_, ?_, ?_⟩
  · intro s hs hne
    simp [Template.analysis_prompt, pyOrElse, hs, hne]
  · rintro (h | h) <;> simp [Template.analysis_prompt, pyOrElse, h]
  · intro s hs hne
    simp [Template.narration_prompt, pyOrElse, hs, hne]
  · rintro (h | h) <;> simp [Template.narration_prompt, pyOrElse, h]

/-- C5 witness: a non-empty override is effective; an empty narration
override falls back to the default. -/
theorem c5_effective_prompts_witness :
    (Template.mk "i" "n" "" "DA" "DN" (some "X") none).analysis_prompt = "X" ∧
    (Template.mk "i" "n" "" "DA" "DN" none (some "")).narration_prompt = "DN" :=
  ⟨(c5_effective_prompts (Template.mk "i" "n" "" "DA" "DN" (some "X") none)).1
      "X" rfl (by decide),
   (c5_effective_prompts
      (Template.mk "i" "n" "" "DA" "DN" none (some ""))).2.2.2 (Or.inr rfl)⟩

/-- C6: if the final polishing call fails, `create_complete_narration` fails
with exactly that error — and every successful result's text comes from a
successful polishing call, never from the unpolished draft. -/
theorem c6_polish_failure_propagates (complete : Completion) (t : Template)
    (frames : List Frame) :
    (∀ results e,
      sceneResults complete t.narration_prompt (identifyScenes frames) =
        Except.ok results →
      complete polishSystemContent
        (String.intercalate "\n\n" (results.map Prod.fst)) = Except.error e →
      createCompleteNarration complete t frames = Except.error e) ∧
    (∀ out, createCompleteNarration complete t frames = Except.ok out →
      ∃ results r,
        sceneResults complete t.narration_prompt (identifyScenes frames) =
          Except.ok results ∧
        complete polishSystemContent
          (String.intercalate "\n\n" (results.map Prod.fst)) = Except.ok r ∧
        out = (pyStrip r.content, results.map Prod.snd)) := by
  constructor
  · intro results e hres hpol
    rw [createCompleteNarration_eq, hres]
    simp [hpol]
  · intro out hout
    rw [createCompleteNarration_eq] at hout
    cases hres : sceneResults complete t.narration_prompt
        (identifyScenes frames) with
    | error e => rw [hres] at hout; simp at hout
    | ok results =>
      rw [hres] at hout
      cases hpol : complete polishSystemContent
          (String.intercalate "\n\n" (results.map Prod.fst)) with
      | error e => simp [hpol] at hout
      | ok r =>
        simp [hpol] at hout
        exact ⟨results, r, rfl, hpol, hout.symm⟩

/-- C6 witness: with a completion that always fails, the operation fails
with the polish call's error (the empty frame list makes the scene loop
trivially succeed, so the polish call is the failing one). -/
theorem c6_polish_failure_propagates_witness :
    createCompleteNarration
        (fun _ _ => Except.error (PipelineError.apiError "rate limit"))
        ⟨"i", "n", "", "DA", "DN", none, none⟩ [] =
      Except.error (PipelineError.apiError "rate limit") :=
  (c6_polish_failure_propagates
      (fun _ _ => Except.error (PipelineError.apiError "rate limit"))
      ⟨"i", "n", "", "DA", "DN", none, none⟩ []).1
    [] (PipelineError.apiError "rate limit") rfl rfl

/-- C7: on a successful scene narration, the timing record's `start_time` is
the timestamp of the scene's first description, `end_time` the timestamp of
its last description, and `original_descriptions` the scene's description
strings in original order. -/
theorem c7_scene_timing (complete : Completion) (prompt : String)
    (scene : List Frame) (h : scene ≠ []) (out : String × TimingData)
    (hok : createSceneNarration complete prompt scene = Except.ok out) :
    out.2.start_time = (scene.head h).timestamp ∧
    out.2.end_time = (scene.getLast h).timestamp ∧
    out.2.original_descriptions = scene.map Frame.narration := by
  cases scene with
  | nil => exact absurd rfl h
  | cons f rest =>
    unfold createSceneNarration at hok
    simp only [Bind.bind, Except.bind, Pure.pure, Except.pure] at hok
    cases hc : complete (narrationSystemContent prompt)
        ("Create natural narration from these descriptions:\n\n" ++
          String.intercalate "\n" ((f :: rest).map Frame.narration)) with
    | error e => rw [hc] at hok; simp at hok
    | ok r =>
      rw [hc] at hok
      simp at hok
      rw [← hok]
      refine ⟨rfl, ?_, rfl⟩
      rw [List.getLast_eq_getLastD, List.getLastD_eq_getLast?]

/-- C7 witness: the timing fields on a concrete two-frame scene. -/
theorem c7_scene_timing_witness :
    ("n", (⟨0, 2, ["a", "b"]⟩ : TimingData)).2.start_time =
      (([⟨0, "a"⟩, ⟨2, "b"⟩] : List Frame).head (by decide)).timestamp ∧
    ("n", (⟨0, 2, ["a", "b"]⟩ : TimingData)).2.end_time =
      (([⟨0, "a"⟩, ⟨2, "b"⟩] : List Frame).getLast (by decide)).timestamp ∧
    ("n", (⟨0, 2, ["a", "b"]⟩ : TimingData)).2.original_descriptions =
      ([⟨0, "a"⟩, ⟨2, "b"⟩] : List Frame).map Frame.narration :=
  c7_scene_timing (fun _ _ => Except.ok ⟨" n "⟩) "p"
    [⟨0, "a"⟩, ⟨2, "b"⟩] (by decide) ("n", ⟨0, 2, ["a", "b"]⟩) rfl

/-- C8: when the per-scene loop succeeds, its results correspond one-to-one
and in order to the scenes (same length, i-th result produced from the i-th
scene), and the final operation polishes exactly the per-scene narration
texts joined with a blank-line separator in that order. -/
theorem c8_draft_order (complete : Completion) (t : Template)
    (frames : List Frame) (results : List (String × TimingData))
    (h : sceneResults complete t.narration_prompt (identifyScenes frames) =
      Except.ok results) :
    results.length = (identifyScenes frames).length ∧
    (∀ (i : Nat) (h1 : i < (identifyScenes frames).length)
        (h2 : i < results.length),
      createSceneNarration complete t.narration_prompt
          ((identifyScenes frames).get ⟨i, h1⟩) =
        Except.ok (results.get ⟨i, h2⟩)) ∧
    createCompleteNarration complete t frames =
      match complete polishSystemContent
          (String.intercalate "\n\n" (results.map Prod.fst)) with
      | Except.error e => Except.error e
      | Except.ok r => Except.ok (pyStrip r.content, results.map Prod.snd) := by
  obtain ⟨hlen, hget⟩ :=
    sceneResults_ok_spec complete t.narration_prompt (identifyScenes frames)
      results h
  exact ⟨hlen, hget, by rw [createCompleteNarration_eq, h]⟩

/-- C8 witness: the correspondence and the polished join on a one-frame
video. -/
theorem c8_draft_order_witness :
    [("n", (⟨0, 0, ["a"]⟩ : TimingData))].length =
      (identifyScenes [⟨0, "a"⟩]).length ∧
    createSceneNarration (fun _ _ => Except.ok ⟨"n"⟩)
        (Template.mk "i" "nm" "" "DA" "DN" none none).narration_prompt
        ((identifyScenes [⟨0, "a"⟩]).get ⟨0, by decide⟩) =
      Except.ok ([("n", (⟨0, 0, ["a"]⟩ : TimingData))].get ⟨0, by decide⟩) ∧
    createCompleteNarration (fun _ _ => Except.ok ⟨"n"⟩)
        (Template.mk "i" "nm" "" "DA" "DN" none none) [⟨0, "a"⟩] =
      match (fun (_ _ : String) =>
          Except.ok (⟨"n"⟩ : CompletionResponse)) polishSystemContent
          (String.intercalate "\n\n"
            ([("n", (⟨0, 0, ["a"]⟩ : TimingData))].map Prod.fst)) with
      | Except.error e => Except.error e
      | Except.ok r =>
        Except.ok (pyStrip r.content,
          [("n", (⟨0, 0, ["a"]⟩ : TimingData))].map Prod.snd) :=
  ⟨(c8_draft_order (fun _ _ => Except.ok ⟨"n"⟩)
      (Template.mk "i" "nm" "" "DA" "DN" none none) [⟨0, "a"⟩]
      [("n", ⟨0, 0, ["a"]⟩)] rfl).1,
   (c8_draft_order (fun _ _ => Except.ok ⟨"n"⟩)
      (Template.mk "i" "nm" "" "DA" "DN" none none) [⟨0, "a"⟩]
      [("n", ⟨0, 0, ["a"]⟩)] rfl).2.1 0 (by decide) (by decide),
   (c8_draft_order (fun _ _ => Except.ok ⟨"n"⟩)
      (Template.mk "i" "nm" "" "DA" "DN" none none) [⟨0, "a"⟩]
      [("n", ⟨0, 0, ["a"]⟩)] rfl).2.2⟩

/-- C9: after `reset_to_defaults`, both custom prompts are `None`,
`is_customized()` is false, both effective prompts equal the defaults, and
the identifying fields and default prompts are unchanged. -/
theorem c9_reset_to_defaults_spec (t : Template) :
    (t.reset_to_defaults).custom_analysis_prompt = none ∧
    (t.reset_to_defaults).custom_narration_prompt = none ∧
    (t.reset_to_defaults).is_customized = false ∧
    (t.reset_to_defaults).analysis_prompt = t.default_analysis_prompt ∧
    (t.reset_to_defaults).narration_prompt = t.default_narration_prompt ∧
    (t.reset_to_defaults).id = t.id ∧
    (t.reset_to_defaults).name = t.name ∧
    (t.reset_to_defaults).description = t.description ∧
    (t.reset_to_defaults).default_analysis_prompt =
      t.default_analysis_prompt ∧
    (t.reset_to_defaults).default_narration_prompt =
      t.default_narration_prompt :=
  ⟨rfl, rfl, rfl, rfl, rfl, rfl, rfl, rfl, rfl, rfl⟩

/-- C10: `safe_file_name` output contains none of the unsafe characters
`< > : " / \ | ? *`, has no leading or trailing whitespace, and is the
character-wise replaced input (unsafe characters turned into underscores,
everything else preserved in order) with whitespace stripped from both ends
(an infix of the replaced sequence). -/
theorem c10_safe_file_name (name : String) :
    (∀ c ∈ (safeFileName name).data, c ∉ unsafeChars) ∧
    (∀ c, (safeFileName name).data.head? = some c → pyIsSpace c = false) ∧
    (∀ c, (safeFileName name).data.getLast? = some c → pyIsSpace c = false) ∧
    (safeFileName name).data <:+:
      name.data.map (fun c => if c ∈ unsafeChars then '_' else c) := by
  have hdata : (safeFileName name).data =
      pyStripList (name.data.map (fun c => if c ∈ unsafeChars then '_' else c)) :=
    rfl
  refine ⟨?_, ?_, ?_, ?_⟩
  · intro c hc
    rw [hdata] at hc
    have hmem := List.IsInfix.subset (pyStripList_infixOf _) hc
    obtain ⟨a, -, ha⟩ := List.mem_map.mp hmem
    by_cases hu : a ∈ unsafeChars
    · rw [if_pos hu] at ha
      rw [← ha]
      decide
    · rw [if_neg hu] at ha
      rw [← ha]
      exact hu
  · intro c hc
    rw [hdata] at hc
    exact pyStripList_head? _ c hc
  · intro c hc
    rw [hdata] at hc
    exact pyStripList_getLast? _ c hc
  · rw [hdata]
    exact pyStripList_infixOf _

/-- C10 witness: the three properties at the concrete input `" a<b "`
(whose safe name is `"a_b"`). -/
theorem c10_safe_file_name_witness :
    'a' ∉ unsafeChars ∧
    pyIsSpace 'a' = false ∧
    pyIsSpace 'b' = false ∧
    (safeFileName " a<b ").data <:+:
      " a<b ".data.map (fun c => if c ∈ unsafeChars then '_' else c) :=
  ⟨(c10_safe_file_name " a<b ").1 'a' (by decide),
   (c10_safe_file_name " a<b ").2.1 'a' (by decide),
   (c10_safe_file_name " a<b ").2.2.1 'b' (by decide),
   (c10_safe_file_name " a<b ").2.2.2⟩

end VideoNarrator
